import Mathlib

/-!
Verification of the subscription-reconciliation and resume-quota logic of the
resume-backend service.  The JavaScript payment controller, auth routes and
resume controller are shallowly embedded: the Mongo user collection is a
`List UserRec` (document ids are unique in the real store; theorems that need
this take a `Nodup` hypothesis), timestamps are `Int` milliseconds, absent JS
values are `Option.none`, and the Stripe client is a function parameter.
-/

namespace ResumeBackend

/-- A user document.  Field names follow the Mongoose model used by the
controllers (`stripeCustomerId`, `stripeSubscriptionId`, `plan`, `role`,
`planStartedAt`, `planExpiresAt`). -/
structure UserRec where
  id : String
  email : Option String
  plan : String
  role : String
  planStartedAt : Option Int
  planExpiresAt : Option Int
  stripeCustomerId : Option String
  stripeSubscriptionId : Option String
  deriving DecidableEq, Repr

/-- A Stripe checkout session as seen by `handleCheckoutCompleted` and
`verifyPaymentSession` (metadata keys modelled separately because the two
handlers read different ones). -/
structure Session where
  id : String
  payment_status : String
  customer : Option String
  subscription : Option String
  metadata_userId : Option String
  metadata_plan : Option String
  metadata_planType : Option String
  customer_details_email : Option String
  customer_email : Option String
  subscription_details_planType : Option String
  deriving DecidableEq, Repr

/-- The result of `stripe.subscriptions.retrieve`; only `current_period_end`
is consulted by the handlers. -/
structure StripeSub where
  status : String
  current_period_end : Option Int
  deriving DecidableEq, Repr

/-- A `customer.subscription.*` webhook payload. -/
structure SubEvent where
  id : String
  status : String
  customer : Option String
  current_period_end : Option Int
  metadata_userId : Option String
  metadata_user_id : Option String
  metadata_planType : Option String
  metadata_plan_type : Option String
  price_id : Option String
  deriving DecidableEq, Repr

/-- An `invoice.payment_succeeded` / `payment_failed` payload. -/
structure Invoice where
  id : String
  subscription : Option String
  metadata_userId : Option String
  customer_details_metadata_userId : Option String
  period_end : Option Int
  deriving DecidableEq, Repr

/-- The configured price identifiers (`STRIPE_PRO_PRICE_ID`,
`STRIPE_BUSINESS_PRICE_ID`). -/
structure Env where
  proPriceId : Option String
  businessPriceId : Option String
  deriving DecidableEq, Repr

/-- `User.findById`. -/
def findById (db : List UserRec) (i : String) : Option UserRec :=
  db.find? (fun u => u.id == i)

/-- `User.findOne({ stripeSubscriptionId })`. -/
def findBySub (db : List UserRec) (s : String) : Option UserRec :=
  db.find? (fun u => u.stripeSubscriptionId == some s)

/-- `User.findOne({ email })`. -/
def findByEmail (db : List UserRec) (e : String) : Option UserRec :=
  db.find? (fun u => u.email == some e)

/-- `User.findOne({ stripeCustomerId })`. -/
def findByCustomer (db : List UserRec) (c : String) : Option UserRec :=
  db.find? (fun u => u.stripeCustomerId == some c)

/-- `user.save()`: persist the in-memory document over every stored document
with the same id (ids are unique in the real store). -/
def saveUser (db : List UserRec) (u : UserRec) : List UserRec :=
  db.map (fun v => if v.id == u.id then u else v)

/-- A `$set` update document; `none` means the key is absent from the update
(Mongoose also strips keys whose value is `undefined`). -/
structure UpdateData where
  role : Option String := none
  plan : Option String := none
  planStartedAt : Option Int := none
  planExpiresAt : Option (Option Int) := none
  stripeSubscriptionId : Option (Option String) := none
  deriving DecidableEq, Repr

/-- Whether the update document has no keys (`Object.keys(updateData).length
=== 0`). -/
def UpdateData.isEmpty (d : UpdateData) : Bool :=
  d.role == none && d.plan == none && d.planStartedAt == none &&
  d.planExpiresAt == none && d.stripeSubscriptionId == none

/-- Apply a `$set` update to one document. -/
def applyUpdate (u : UserRec) (d : UpdateData) : UserRec :=
  { u with
    role := d.role.getD u.role
    plan := d.plan.getD u.plan
    planStartedAt := match d.planStartedAt with
      | some v => some v
      | none => u.planStartedAt
    planExpiresAt := d.planExpiresAt.getD u.planExpiresAt
    stripeSubscriptionId := d.stripeSubscriptionId.getD u.stripeSubscriptionId }

/-- `User.findByIdAndUpdate(id, { $set: d })`. -/
def updateById (db : List UserRec) (i : String) (d : UpdateData) : List UserRec :=
  db.map (fun v => if v.id == i then applyUpdate v d else v)

/-- JS `s.toLowerCase()` (the plan tags handled here are ASCII); defined by a
structural map over the characters so that concrete instances evaluate. -/
def jsToLower (s : String) : String :=
  String.mk (s.data.map Char.toLower)

/-- JS `expiresAt && expiresAt > now`. -/
def expFuture : Option Int → Int → Bool
  | some e, now => decide (now < e)
  | none, _ => false

/-- JS `expiresAt && expiresAt < now`. -/
def expPast : Option Int → Int → Bool
  | some e, now => decide (e < now)
  | none, _ => false

/-- `session.metadata?.plan || session.metadata?.planType`
(handleCheckoutCompleted). -/
def checkoutPlanTag (s : Session) : Option String :=
  s.metadata_plan <|> s.metadata_planType

/-- The userId `handleCheckoutCompleted` resolves: `session.metadata.userId`,
falling back to a lookup of the payer email against stored emails. -/
def checkoutUserId (db : List UserRec) (s : Session) : Option String :=
  match s.metadata_userId with
  | some uid => some uid
  | none =>
    match s.customer_details_email <|> s.customer_email with
    | some e => (findByEmail db e).map (fun u => u.id)
    | none => none

/-- `handleCheckoutCompleted(session)`.  `retrieve` is
`stripe.subscriptions.retrieve` (`none` = the call threw); `addMonth` models
`d.setMonth(d.getMonth() + 1)`; `now` is the processing time. -/
def handleCheckoutCompleted (retrieve : String → Option StripeSub)
    (addMonth : Int → Int) (now : Int) (db : List UserRec) (session : Session) :
    List UserRec :=
  match checkoutUserId db session with
  | none => db
  | some uid =>
    match checkoutPlanTag session with
    | none => db
    | some pt =>
      let npt := jsToLower pt
      if ¬ (npt = "pro" ∨ npt = "business") then db
      else if session.payment_status ≠ "paid" then db
      else
        match findById db uid with
        | none => db
        | some user =>
          let sub := session.subscription.bind retrieve
          let planExpiresAt : Int :=
            match sub with
            | some s =>
              match s.current_period_end with
              | some pe => pe
              | none => addMonth now
            | none => addMonth now
          let isDup : Bool :=
            session.subscription.isSome &&
            user.stripeSubscriptionId == session.subscription &&
            user.plan == npt &&
            expFuture user.planExpiresAt now
          if isDup then db
          else
            let upd : UpdateData :=
              { role := some npt, plan := some npt,
                planStartedAt := some now,
                planExpiresAt := some (some planExpiresAt),
                stripeSubscriptionId := session.subscription.map some }
            updateById db uid upd

/-- `subscription.metadata?.userId || subscription.metadata?.user_id`. -/
def metaUserId (ev : SubEvent) : Option String :=
  ev.metadata_userId <|> ev.metadata_user_id

/-- `subscription.metadata?.planType || subscription.metadata?.plan_type`. -/
def metaPlanType (ev : SubEvent) : Option String :=
  ev.metadata_planType <|> ev.metadata_plan_type

/-- Plan-type determination shared by the subscription handlers: lowercase the
metadata tag when present, otherwise compare the price id against the two
configured prices. -/
def determinePlan (env : Env) (planType : Option String)
    (priceId : Option String) : Option String :=
  match planType with
  | some pt => some (jsToLower pt)
  | none =>
    match priceId with
    | some pid =>
      if env.proPriceId = some pid then some "pro"
      else if env.businessPriceId = some pid then some "business"
      else none
    | none => none

/-- Shared user resolution for the subscription/invoice handlers: first
`findOne({stripeSubscriptionId})`, then `findById` on the metadata user id.
When `relink` is set and the record found by id stores a different
subscription reference, the reference is written onto the record
(`user.save()`), as `handleSubscriptionCreated`, `handleSubscriptionUpdate`
and the invoice handlers do; `handleSubscriptionCancelled` only logs.
Returns the in-memory document and the possibly-updated store. -/
def resolveSubThenUid (db : List UserRec) (subId : String)
    (uid? : Option String) (relink : Bool) : Option UserRec × List UserRec :=
  match findBySub db subId with
  | some u => (some u, db)
  | none =>
    match uid? with
    | none => (none, db)
    | some uid =>
      match findById db uid with
      | none => (none, db)
      | some u =>
        if relink ∧ u.stripeSubscriptionId ≠ some subId then
          let u' := { u with stripeSubscriptionId := some subId }
          (some u', saveUser db u')
        else (some u, db)

/-- User resolution of `handleSubscriptionCreated`: subscription id, then
metadata user id (relinking), then customer id (relinking unconditionally). -/
def resolveCreated (db : List UserRec) (ev : SubEvent) :
    Option UserRec × List UserRec :=
  match resolveSubThenUid db ev.id (metaUserId ev) true with
  | (some u, db') => (some u, db')
  | (none, db') =>
    match ev.customer with
    | some c =>
      match findByCustomer db' c with
      | some u =>
        let u' := { u with stripeSubscriptionId := some ev.id }
        (some u', saveUser db' u')
      | none => (none, db')
    | none => (none, db')

/-- The "active but plan type undeterminable" branch of
`handleSubscriptionCreated`: refresh the expiration from the period end when
present, via a whole-document save. -/
def expOnlySave (db : List UserRec) (user : UserRec) (ev : SubEvent) :
    List UserRec :=
  match ev.current_period_end with
  | some pe => saveUser db { user with planExpiresAt := some pe }
  | none => db

/-- `handleSubscriptionCreated(subscription)`. -/
def handleSubscriptionCreated (env : Env) (addMonth : Int → Int) (now : Int)
    (db : List UserRec) (ev : SubEvent) : List UserRec :=
  let determined := determinePlan env (metaPlanType ev) ev.price_id
  match resolveCreated db ev with
  | (none, db') => db'
  | (some user, db') =>
    if ev.status = "active" ∨ ev.status = "trialing" then
      match determined with
      | some d =>
        if d = "pro" ∨ d = "business" then
          let planExpiresAt : Int :=
            match ev.current_period_end with
            | some pe => pe
            | none => addMonth now
          let upd : UpdateData :=
            { role := some d, plan := some d,
              planExpiresAt := some (some planExpiresAt),
              stripeSubscriptionId := some (some ev.id),
              planStartedAt := if user.planStartedAt = none then some now else none }
          if user.plan ≠ d ∨ user.stripeSubscriptionId ≠ some ev.id ∨
              user.planExpiresAt = none ∨ user.planExpiresAt ≠ some planExpiresAt then
            updateById db' user.id upd
          else db'
        else expOnlySave db' user ev
      | none => expOnlySave db' user ev
    else db'

/-- The `$set` document clearing a paid plan (used on cancellation and on a
failing subscription status). -/
def freeUpd : UpdateData :=
  { role := some "free", plan := some "free",
    planExpiresAt := some none, stripeSubscriptionId := some none }

/-- `updateSubscriptionDetails(user, subscription, planType)`. -/
def updateSubscriptionDetails (env : Env) (now : Int) (db : List UserRec)
    (user : UserRec) (ev : SubEvent) (planType : Option String) :
    List UserRec :=
  let determined := determinePlan env planType ev.price_id
  let upd : UpdateData :=
    if ev.status = "active" ∨ ev.status = "trialing" then
      let d1 : UpdateData :=
        match determined with
        | some d =>
          if d = "pro" ∨ d = "business" then
            { role := some d, plan := some d }
          else {}
        | none => {}
      let d2 : UpdateData :=
        match ev.current_period_end with
        | some pe => { d1 with planExpiresAt := some (some pe) }
        | none => d1
      if user.planStartedAt = none then { d2 with planStartedAt := some now }
      else d2
    else if ev.status = "canceled" ∨ ev.status = "unpaid" ∨
        ev.status = "incomplete_expired" ∨ ev.status = "past_due" then
      freeUpd
    else {}
  if upd.isEmpty then db else updateById db user.id upd

/-- `handleSubscriptionUpdate(subscription)`: resolve by subscription id then
metadata user id (no customer-id fallback), then apply
`updateSubscriptionDetails`. -/
def handleSubscriptionUpdate (env : Env) (now : Int) (db : List UserRec)
    (ev : SubEvent) : List UserRec :=
  match resolveSubThenUid db ev.id (metaUserId ev) true with
  | (none, db') => db'
  | (some user, db') => updateSubscriptionDetails env now db' user ev (metaPlanType ev)

/-- `handleSubscriptionCancelled(subscription)`: resolve by subscription id
then metadata user id (without relinking), then downgrade to free. -/
def handleSubscriptionCancelled (db : List UserRec) (ev : SubEvent) :
    List UserRec :=
  match resolveSubThenUid db ev.id (metaUserId ev) false with
  | (none, _) => db
  | (some user, _) => updateById db user.id freeUpd

/-- `handlePaymentSucceeded(invoice)`. -/
def handlePaymentSucceeded (now : Int) (db : List UserRec) (inv : Invoice) :
    List UserRec :=
  match inv.subscription with
  | none => db
  | some subId =>
    match resolveSubThenUid db subId
        (inv.metadata_userId <|> inv.customer_details_metadata_userId) true with
    | (none, db') => db'
    | (some user, db') =>
      match inv.period_end with
      | none => db'
      | some pe =>
        if now < pe ∧ (user.planExpiresAt = none ∨ user.planExpiresAt ≠ some pe) then
          saveUser db' { user with planExpiresAt := some pe }
        else db'

/-- The distinguishable outcomes of `verifyPaymentSession`; `castError` is
the 500 response produced when the final `findByIdAndUpdate` rejects. -/
inductive VerifyOutcome where
  | forbidden
  | notPaid
  | invalidPlan
  | userNotFound
  | alreadyUpdated
  | updated
  | castError
  deriving DecidableEq, Repr

/-- `verifyPaymentSession` (POST /api/payment/verify-session).  `callerId` is
the authenticated user.  The handler retrieves the session with
`expand: ['subscription']`, so when the session carries a subscription its
`subscription` field materialises as the expanded subscription OBJECT, not
the id string the webhook payload carries.  Three consequences are embedded
here for that case: the idempotency comparison
`user.stripeSubscriptionId === session.subscription` compares a stored string
(or null) with the object and is always false; `stripe.subscriptions.retrieve`
is fed the object, so the call always fails and `planExpiresAt` falls back to
now + 1 month; and the `$set` places the object in `stripeSubscriptionId`.
Modelled from the spec: models/User.js is not among the sources; the spec
declares subscriptionRef an opaque string identifier, so that field is
string-typed and Mongoose rejects the object `$set` with a CastError — the
update, and with it the whole write, fails and the outer catch answers 500
(`castError`, store untouched).  Without a subscription, `session.subscription`
is null, the fallback expiry is used, no `stripeSubscriptionId` key is set and
the write succeeds.  The unused `retrieve` parameter mirrors the handler's
Stripe client, whose subscription lookup never succeeds on this path. -/
def verifyPaymentSession (retrieve : String → Option StripeSub)
    (addMonth : Int → Int) (now : Int) (db : List UserRec) (session : Session)
    (callerId : String) : List UserRec × VerifyOutcome :=
  let mismatch : Bool :=
    match session.metadata_userId with
    | some m => m != callerId
    | none => false
  if mismatch then (db, .forbidden)
  else if session.payment_status ≠ "paid" then (db, .notPaid)
  else
    match session.metadata_planType <|> session.subscription_details_planType with
    | none => (db, .invalidPlan)
    | some pt =>
      if ¬ (jsToLower pt = "pro" ∨ jsToLower pt = "business") then
        (db, .invalidPlan)
      else
        let npt := jsToLower pt
        match findById db callerId with
        | none => (db, .userNotFound)
        | some user =>
          let sameSubRef : Bool :=
            match session.subscription with
            | some _ => false
            | none => user.stripeSubscriptionId == none
          let isDup : Bool :=
            user.plan == npt && user.role == npt && sameSubRef &&
            expFuture user.planExpiresAt now
          if isDup then (db, .alreadyUpdated)
          else
            match session.subscription with
            | some _ => (db, .castError)
            | none =>
              let upd : UpdateData :=
                { role := some npt, plan := some npt,
                  planStartedAt := some now,
                  planExpiresAt := some (some (addMonth now)),
                  stripeSubscriptionId := none }
              (updateById db callerId upd, .updated)

/-- The body of the GET /api/payment/status response. -/
structure StatusResp where
  plan : String
  planStartedAt : Option Int
  planExpiresAt : Option Int
  stripeCustomerId : Option String
  stripeSubscriptionId : Option String
  hasActiveSubscription : Bool
  deriving DecidableEq, Repr

/-- `getSubscriptionStatus` (GET /api/payment/status); `none` models the 404
response.  When the stored plan is non-free and expired the record is
downgraded (plan and expiration only) and saved before responding. -/
def getSubscriptionStatus (now : Int) (db : List UserRec) (callerId : String) :
    List UserRec × Option StatusResp :=
  match findById db callerId with
  | none => (db, none)
  | some user =>
    let downgrade : Bool := expPast user.planExpiresAt now && user.plan != "free"
    let user' := if downgrade then { user with plan := "free", planExpiresAt := none } else user
    let db' := if downgrade then saveUser db user' else db
    (db', some
      { plan := user'.plan
        planStartedAt := user'.planStartedAt
        planExpiresAt := user'.planExpiresAt
        stripeCustomerId := user'.stripeCustomerId
        stripeSubscriptionId := user'.stripeSubscriptionId
        hasActiveSubscription := user'.plan != "free" &&
          (match user'.planExpiresAt with
           | some e => decide (now < e)
           | none => true) })

/-- GET /auth/me: `passport.deserializeUser` re-reads the record by id and the
route returns it verbatim; `none` models the 401 `{user: null}` response. -/
def authMe (db : List UserRec) (sessionUserId : Option String) :
    List UserRec × Option UserRec :=
  match sessionUserId with
  | none => (db, none)
  | some uid => (db, findById db uid)

/-- A resume document (fields relevant to creation and the quota). -/
structure ResumeRec where
  id : String
  userId : String
  title : String
  template : String
  deriving DecidableEq, Repr

/-- A POST /api/resumes request body; `hasData` models the presence of the
required `data` object. -/
structure CreateReq where
  title : String
  hasData : Bool
  template : Option String
  deriving DecidableEq, Repr

/-- The distinguishable outcomes of `createResume`. -/
inductive CreateOutcome where
  | badRequest
  | userNotFound
  | quotaExceeded
  | created
  deriving DecidableEq, Repr

/-- The document inserted by a successful `createResume`. -/
def newResume (callerId : String) (req : CreateReq) (newId : String) : ResumeRec :=
  { id := newId, userId := callerId, title := req.title,
    template := req.template.getD "default" }

/-- `createResume` (POST /api/resumes): validate title/data, look up the
caller, count the caller's resumes, reject free-plan callers at 3 or more,
otherwise insert. -/
def createResume (db : List UserRec) (resumes : List ResumeRec)
    (callerId : String) (req : CreateReq) (newId : String) :
    List ResumeRec × CreateOutcome :=
  if req.title = "" ∨ req.hasData = false then (resumes, .badRequest)
  else
    match findById db callerId with
    | none => (resumes, .userNotFound)
    | some user =>
      let cnt := (resumes.filter (fun r => r.userId == callerId)).length
      if user.plan = "free" ∧ 3 ≤ cnt then (resumes, .quotaExceeded)
      else (resumes ++ [newResume callerId req newId], .created)

end ResumeBackend

namespace ResumeBackend

/-- An element read off a list by index is a member. -/
lemma mem_of_index {α : Type} {l : List α} {i : Nat} {a : α}
    (h : l[i]? = some a) : a ∈ l := by
  obtain ⟨hi, rfl⟩ := List.getElem?_eq_some.mp h
  exact List.getElem_mem ..

/-- In a store with unique ids, two members with the same id coincide. -/
lemma eq_of_id_eq {db : List UserRec} (hnd : (db.map UserRec.id).Nodup)
    {u v : UserRec} (hu : u ∈ db) (hv : v ∈ db) (h : u.id = v.id) : u = v :=
  List.inj_on_of_nodup_map hnd hu hv h

/-- A record found by `findBySub` is a member storing that subscription id. -/
lemma findBySub_spec {db : List UserRec} {s : String} {u : UserRec}
    (h : findBySub db s = some u) :
    u ∈ db ∧ u.stripeSubscriptionId = some s := by
  refine ⟨List.mem_of_find?_eq_some h, ?_⟩
  have := List.find?_some h
  simpa using this

/-- A record found by `findById` is a member carrying that id. -/
lemma findById_spec {db : List UserRec} {i : String} {u : UserRec}
    (h : findById db i = some u) : u ∈ db ∧ u.id = i := by
  refine ⟨List.mem_of_find?_eq_some h, ?_⟩
  have := List.find?_some h
  simpa using this

/-- Pointwise description of `saveUser`. -/
lemma saveUser_index (db : List UserRec) (u : UserRec) (i : Nat) :
    (saveUser db u)[i]? = db[i]?.map (fun v => if v.id == u.id then u else v) := by
  simp [saveUser]

/-- The possible shapes of `resolveSubThenUid`: a member found with the store
untouched, no resolution with the store untouched, or (when relinking) a
member re-pointed at the event subscription id with that write saved. -/
lemma resolveSubThenUid_cases (db : List UserRec) (subId : String)
    (uid? : Option String) (relink : Bool) :
    (∃ u, u ∈ db ∧ resolveSubThenUid db subId uid? relink = (some u, db)) ∨
    resolveSubThenUid db subId uid? relink = (none, db) ∨
    (∃ u, u ∈ db ∧ relink = true ∧
      resolveSubThenUid db subId uid? relink =
        (some { u with stripeSubscriptionId := some subId },
         saveUser db { u with stripeSubscriptionId := some subId })) := by
  rcases hs : findBySub db subId with _ | u
  · cases uid? with
    | none => exact Or.inr (Or.inl (by simp [resolveSubThenUid, hs]))
    | some uid =>
      rcases hf : findById db uid with _ | u
      · exact Or.inr (Or.inl (by simp [resolveSubThenUid, hs, hf]))
      · by_cases hrl : relink = true ∧ u.stripeSubscriptionId ≠ some subId
        · exact Or.inr (Or.inr ⟨u, (findById_spec hf).1, hrl.1,
            by simp [resolveSubThenUid, hs, hf, hrl.1, hrl.2]⟩)
        · exact Or.inl ⟨u, (findById_spec hf).1,
            by simp [resolveSubThenUid, hs, hf, hrl]⟩
  · exact Or.inl ⟨u, (findBySub_spec hs).1, by simp [resolveSubThenUid, hs]⟩

/-- C1: re-delivery of an already-applied checkout_completed event is a no-op.
If the event carries a subscription reference, the user it resolves to already
stores that same reference, their plan equals the plan resolved from the
event's metadata, and their planExpiresAt is non-null and strictly in the
future, then `handleCheckoutCompleted` performs no write: the store is
returned unchanged. -/
theorem checkout_redelivery_noop (retrieve : String → Option StripeSub)
    (addMonth : Int → Int) (now : Int) (db : List UserRec) (session : Session)
    (s : String) (uid : String) (u : UserRec)
    (hs : session.subscription = some s)
    (hres : checkoutUserId db session = some uid)
    (hfind : findById db uid = some u)
    (hsub : u.stripeSubscriptionId = some s)
    (hplan : ∃ pt, checkoutPlanTag session = some pt ∧ u.plan = jsToLower pt)
    (hexp : ∃ e, u.planExpiresAt = some e ∧ now < e) :
    handleCheckoutCompleted retrieve addMonth now db session = db := by
  obtain ⟨pt, hpt, hupt⟩ := hplan
  obtain ⟨e, he, hlt⟩ := hexp
  unfold handleCheckoutCompleted
  rw [hres, hpt]
  by_cases hv : ¬ (jsToLower pt = "pro" ∨ jsToLower pt = "business")
  · simp [hv]
  · simp only [hv, if_false]
    by_cases hpay : session.payment_status ≠ "paid"
    · simp [hpay]
    · simp only [hpay, if_false]
      rw [hfind]
      have hdup : (session.subscription.isSome &&
          u.stripeSubscriptionId == session.subscription &&
          u.plan == jsToLower pt && expFuture u.planExpiresAt now) = true := by
        rw [hs, hsub, hupt, he]
        simp [expFuture, hlt]
      simp [hdup]

/-- Witness for C1 at a concrete store and event. -/
theorem checkout_redelivery_noop_witness :
    handleCheckoutCompleted (fun _ => none) (fun t => t + 30) 0
      [{ id := "u1", email := some "a@b.c", plan := "pro", role := "pro",
         planStartedAt := some 0, planExpiresAt := some 100,
         stripeCustomerId := some "cus1", stripeSubscriptionId := some "sub1" }]
      { id := "cs1", payment_status := "paid", customer := some "cus1",
        subscription := some "sub1", metadata_userId := some "u1",
        metadata_plan := some "pro", metadata_planType := some "pro",
        customer_details_email := none, customer_email := none,
        subscription_details_planType := none } =
      [{ id := "u1", email := some "a@b.c", plan := "pro", role := "pro",
         planStartedAt := some 0, planExpiresAt := some 100,
         stripeCustomerId := some "cus1", stripeSubscriptionId := some "sub1" }] :=
  checkout_redelivery_noop (fun _ => none) (fun t => t + 30) 0 _ _ "sub1" "u1" _
    rfl rfl rfl rfl ⟨"pro", rfl, by decide⟩ ⟨100, rfl, by decide⟩

/-- C6: a verify-session call whose retrieved session embeds a user id
different from the authenticated caller is refused with the 403 outcome and
the user store is returned untouched. -/
theorem verify_mismatch_rejects (retrieve : String → Option StripeSub)
    (addMonth : Int → Int) (now : Int) (db : List UserRec) (session : Session)
    (callerId m : String)
    (hm : session.metadata_userId = some m) (hne : m ≠ callerId) :
    verifyPaymentSession retrieve addMonth now db session callerId =
      (db, VerifyOutcome.forbidden) := by
  unfold verifyPaymentSession
  rw [hm]
  simp [hne]

/-- Witness for C6 at a concrete session and caller. -/
theorem verify_mismatch_rejects_witness :
    verifyPaymentSession (fun _ => none) (fun t => t + 30) 0 []
      { id := "cs1", payment_status := "paid", customer := none,
        subscription := none, metadata_userId := some "u1",
        metadata_plan := none, metadata_planType := none,
        customer_details_email := none, customer_email := none,
        subscription_details_planType := none } "u2" =
      ([], VerifyOutcome.forbidden) :=
  verify_mismatch_rejects (fun _ => none) (fun t => t + 30) 0 [] _ "u2" "u1"
    rfl (by decide)

/-- C9: a free-plan caller already owning three or more resumes gets the
quota-exceeded rejection and no resume is inserted; with fewer than three the
insertion succeeds. -/
theorem free_plan_quota (db : List UserRec) (resumes : List ResumeRec)
    (callerId newId : String) (req : CreateReq) (user : UserRec)
    (hu : findById db callerId = some user) (hplan : user.plan = "free")
    (ht : req.title ≠ "") (hd : req.hasData = true) :
    (3 ≤ (resumes.filter (fun r => r.userId == callerId)).length →
      createResume db resumes callerId req newId =
        (resumes, CreateOutcome.quotaExceeded)) ∧
    ((resumes.filter (fun r => r.userId == callerId)).length < 3 →
      createResume db resumes callerId req newId =
        (resumes ++ [newResume callerId req newId], CreateOutcome.created)) := by
  unfold createResume
  rw [hu]
  constructor <;> intro h
  · simp [ht, hd, hplan, h]
  · simp [ht, hd, Nat.not_le.mpr h]

/-- A free-plan user for the quota witness. -/
def uFreePlan : UserRec :=
  { id := "u1", email := none, plan := "free", role := "free",
    planStartedAt := none, planExpiresAt := none,
    stripeCustomerId := none, stripeSubscriptionId := none }

/-- Witness for C9: a free user with three resumes is rejected; with two the
resume is created. -/
theorem free_plan_quota_witness :
    (createResume [uFreePlan]
      [⟨"r1", "u1", "a", "d"⟩, ⟨"r2", "u1", "b", "d"⟩, ⟨"r3", "u1", "c", "d"⟩]
      "u1" { title := "t", hasData := true, template := none } "r4" =
      ([⟨"r1", "u1", "a", "d"⟩, ⟨"r2", "u1", "b", "d"⟩, ⟨"r3", "u1", "c", "d"⟩],
       CreateOutcome.quotaExceeded)) ∧
    (createResume [uFreePlan]
      [⟨"r1", "u1", "a", "d"⟩, ⟨"r2", "u1", "b", "d"⟩]
      "u1" { title := "t", hasData := true, template := none } "r3" =
      ([⟨"r1", "u1", "a", "d"⟩, ⟨"r2", "u1", "b", "d"⟩,
        newResume "u1" { title := "t", hasData := true, template := none } "r3"],
       CreateOutcome.created)) :=
  ⟨(free_plan_quota [uFreePlan]
      [⟨"r1", "u1", "a", "d"⟩, ⟨"r2", "u1", "b", "d"⟩, ⟨"r3", "u1", "c", "d"⟩]
      "u1" "r4" { title := "t", hasData := true, template := none } uFreePlan
      (by decide) rfl (by decide) rfl).1 (by decide),
   (free_plan_quota [uFreePlan]
      [⟨"r1", "u1", "a", "d"⟩, ⟨"r2", "u1", "b", "d"⟩]
      "u1" "r3" { title := "t", hasData := true, template := none } uFreePlan
      (by decide) rfl (by decide) rfl).2 (by decide)⟩

/-- The expired pro user exercising the lazy-downgrade path of
GET /api/payment/status. -/
def uExpiredPro : UserRec :=
  { id := "u1", email := some "a@b.c", plan := "pro", role := "pro",
    planStartedAt := some 1, planExpiresAt := some 5,
    stripeCustomerId := some "cus1", stripeSubscriptionId := some "sub1" }

/-- C8 (code bug evidence): the lazy expiration downgrade in
`getSubscriptionStatus` persists `plan = "free"` but leaves the legacy `role`
field at its old value, so the stored record ends with `role ≠ plan` even
though it started with `role = plan`. -/
theorem status_downgrade_breaks_role_mirror :
    uExpiredPro.role = uExpiredPro.plan ∧
    expPast uExpiredPro.planExpiresAt 10 = true ∧
    (getSubscriptionStatus 10 [uExpiredPro] "u1").1.map
        (fun u => (u.plan, u.role)) = [("free", "pro")] ∧
    (getSubscriptionStatus 10 [uExpiredPro] "u1").2.map
        StatusResp.plan = some "free" := by
  decide

/-- C4 counterexample: GET /auth/me for a user whose plan is "pro" and whose
planExpiresAt lies in the past (5 < 10 = now) responds with the stored record
still reporting plan "pro" and performs no write, contradicting the claimed
lazy downgrade to "free". -/
theorem authMe_reports_stale_plan :
    uExpiredPro.plan = "pro" ∧ uExpiredPro.plan ≠ "free" ∧
    expPast uExpiredPro.planExpiresAt 10 = true ∧
    authMe [uExpiredPro] (some "u1") = ([uExpiredPro], some uExpiredPro) := by
  decide

/-- C4 amended: GET /auth/me re-reads the stored record and returns it
verbatim with no downgrade and no write, even for an expired non-free plan;
the lazy expiration downgrade is performed only by GET /api/payment/status,
whose response reports plan "free" for such a user. -/
theorem authMe_no_downgrade (db : List UserRec) (uid : String) (u : UserRec)
    (now : Int) (h : findById db uid = some u)
    (hexp : expPast u.planExpiresAt now = true) (hplan : u.plan ≠ "free") :
    (authMe db (some uid)).1 = db ∧ (authMe db (some uid)).2 = some u ∧
    (getSubscriptionStatus now db uid).2.map StatusResp.plan = some "free" := by
  refine ⟨rfl, by simp [authMe, h], ?_⟩
  unfold getSubscriptionStatus
  rw [h]
  have hb : (expPast u.planExpiresAt now && (u.plan != "free")) = true := by
    simp [hexp, hplan]
  simp [hb]

/-- Witness for the amended C4 at the concrete expired pro user. -/
theorem authMe_no_downgrade_witness :
    (authMe [uExpiredPro] (some "u1")).1 = [uExpiredPro] ∧
    (authMe [uExpiredPro] (some "u1")).2 = some uExpiredPro ∧
    (getSubscriptionStatus 10 [uExpiredPro] "u1").2.map
      StatusResp.plan = some "free" :=
  authMe_no_downgrade [uExpiredPro] "u1" uExpiredPro 10 rfl (by decide) (by decide)

/-- The invoice used to exhibit the backwards move of `planExpiresAt`. -/
def invEarlierPeriod : Invoice :=
  { id := "in1", subscription := some "sub1", metadata_userId := none,
    customer_details_metadata_userId := none, period_end := some 50 }

/-- A pro user whose stored expiration (100) lies beyond the invoice period
end of `invEarlierPeriod`. -/
def uLongExpiry : UserRec :=
  { id := "u1", email := some "a@b.c", plan := "pro", role := "pro",
    planStartedAt := some 1, planExpiresAt := some 100,
    stripeCustomerId := some "cus1", stripeSubscriptionId := some "sub1" }

/-- C2 counterexample: the user stores `planExpiresAt = 100`; the invoice
carries period end 50, which is in the future (now = 0) but strictly earlier
than the stored value; `handlePaymentSucceeded` still writes it, moving
`planExpiresAt` backwards from 100 to 50. -/
theorem invoice_moves_expiry_backwards :
    uLongExpiry.planExpiresAt = some 100 ∧
    invEarlierPeriod.period_end = some 50 ∧ (0 : Int) < 50 ∧ (50 : Int) < 100 ∧
    (handlePaymentSucceeded 0 [uLongExpiry] invEarlierPeriod).map
      UserRec.planExpiresAt = [some 50] := by
  decide

/-- A paid session whose metadata carries the plan tag only under the `plan`
key (no `planType`), embedding the caller "u1". -/
def sessPlanKeyOnly : Session :=
  { id := "cs2", payment_status := "paid", customer := some "cus1",
    subscription := some "sub1", metadata_userId := some "u1",
    metadata_plan := some "pro", metadata_planType := none,
    customer_details_email := none, customer_email := none,
    subscription_details_planType := none }

/-- The Stripe client answering every subscription lookup with an active
subscription ending at 100. -/
def retrFixed : String → Option StripeSub :=
  fun _ => some { status := "active", current_period_end := some 100 }

/-- C5 counterexample: for the paid session `sessPlanKeyOnly`, whose embedded
user equals the caller, the checkout_completed webhook resolves plan "pro"
from `metadata.plan` and upgrades the user, while verify-session reads only
`metadata.planType`, rejects with the invalid-plan outcome, and leaves the
user on "free" — the two paths produce different final states. -/
theorem verify_checkout_diverge :
    sessPlanKeyOnly.payment_status = "paid" ∧
    sessPlanKeyOnly.metadata_userId = some "u1" ∧
    verifyPaymentSession retrFixed (fun t => t + 30) 0 [uFreePlan]
      sessPlanKeyOnly "u1" = ([uFreePlan], VerifyOutcome.invalidPlan) ∧
    (handleCheckoutCompleted retrFixed (fun t => t + 30) 0 [uFreePlan]
      sessPlanKeyOnly).map UserRec.plan = ["pro"] ∧
    uFreePlan.plan = "free" := by
  decide

/-- The user matched only through the stored customer id. -/
def uCustomerOnly : UserRec :=
  { id := "u1", email := some "a@b.c", plan := "free", role := "free",
    planStartedAt := none, planExpiresAt := none,
    stripeCustomerId := some "cus1", stripeSubscriptionId := none }

/-- The subscription_updated payload that matches `uCustomerOnly` only by its
customer reference. -/
def evCustomerMatch : SubEvent :=
  { id := "sub9", status := "active", customer := some "cus1",
    current_period_end := some 100, metadata_userId := none,
    metadata_user_id := none, metadata_planType := none,
    metadata_plan_type := none, price_id := none }

/-- C7 counterexample: a subscription_updated event whose customer reference
matches a stored record (and whose first two resolution steps fail) is a
complete no-op — the user is not resolved, not linked to "sub9", and nothing
is written — while the claim requires the customerRef fallback to resolve and
link the user.  (`handleSubscriptionCreated` does fall back to the customer
reference on the same input.) -/
theorem subscription_update_ignores_customer :
    uCustomerOnly.stripeCustomerId = some "cus1" ∧
    evCustomerMatch.customer = some "cus1" ∧
    uCustomerOnly.stripeSubscriptionId = none ∧
    findBySub [uCustomerOnly] evCustomerMatch.id = none ∧
    metaUserId evCustomerMatch = none ∧
    handleSubscriptionUpdate { proPriceId := none, businessPriceId := none } 0
      [uCustomerOnly] evCustomerMatch = [uCustomerOnly] ∧
    (handleSubscriptionCreated { proPriceId := none, businessPriceId := none }
      (fun t => t + 30) 0 [uCustomerOnly] evCustomerMatch).map
        UserRec.stripeSubscriptionId = [some "sub9"] := by
  decide

/-- `updateSubscriptionDetails` on a failing status always applies the
free-clearing update. -/
lemma updateSubDetails_cancel (env : Env) (now : Int) (db : List UserRec)
    (user : UserRec) (ev : SubEvent) (pt : Option String)
    (h : ev.status = "canceled" ∨ ev.status = "unpaid" ∨
      ev.status = "incomplete_expired" ∨ ev.status = "past_due") :
    updateSubscriptionDetails env now db user ev pt =
      updateById db user.id freeUpd := by
  rcases h with h | h | h | h <;>
    simp [updateSubscriptionDetails, h, UpdateData.isEmpty, freeUpd]

/-- A record touched by the free-clearing update carries the four cleared
fields. -/
lemma applyUpdate_freeUpd (w : UserRec) :
    (applyUpdate w freeUpd).plan = "free" ∧
    (applyUpdate w freeUpd).role = "free" ∧
    (applyUpdate w freeUpd).planExpiresAt = none ∧
    (applyUpdate w freeUpd).stripeSubscriptionId = none := by
  simp [applyUpdate, freeUpd]

/-- Every record of `updateById db i d` whose id is `i` is the updated image
of a stored record; records with other ids pass through unchanged. -/
lemma mem_updateById {db : List UserRec} {i : String} {d : UpdateData}
    {v : UserRec} (hv : v ∈ updateById db i d) (hid : v.id = i) :
    ∃ w ∈ db, v = applyUpdate w d := by
  obtain ⟨w, hw, hfw⟩ := List.mem_map.mp hv
  by_cases hwi : w.id == i
  · exact ⟨w, hw, by rw [← hfw]; simp [hwi]⟩
  · exfalso
    rw [if_neg (by simpa using hwi)] at hfw
    exact (by simpa using hwi : ¬ w.id = i) (hfw ▸ hid)

/-- C3: a subscription_deleted event, and a subscription_updated event whose
provider status is canceled, unpaid, incomplete_expired or past_due, always
leave every record of the resolved user with plan = "free", role = "free",
planExpiresAt = null and stripeSubscriptionId = null, whatever its prior
state. -/
theorem failing_subscription_forces_free (env : Env) (now : Int)
    (db : List UserRec) (evD evU : SubEvent) (uD uU v w : UserRec) :
    ((resolveSubThenUid db evD.id (metaUserId evD) false).1 = some uD →
      v ∈ handleSubscriptionCancelled db evD → v.id = uD.id →
      v.plan = "free" ∧ v.role = "free" ∧ v.planExpiresAt = none ∧
        v.stripeSubscriptionId = none) ∧
    ((evU.status = "canceled" ∨ evU.status = "unpaid" ∨
        evU.status = "incomplete_expired" ∨ evU.status = "past_due") →
      (resolveSubThenUid db evU.id (metaUserId evU) true).1 = some uU →
      w ∈ handleSubscriptionUpdate env now db evU → w.id = uU.id →
      w.plan = "free" ∧ w.role = "free" ∧ w.planExpiresAt = none ∧
        w.stripeSubscriptionId = none) := by
  constructor
  · intro hres hv hid
    unfold handleSubscriptionCancelled at hv
    rcases hp : resolveSubThenUid db evD.id (metaUserId evD) false with ⟨o, db2⟩
    rw [hp] at hres hv
    simp only at hres
    subst hres
    simp only at hv
    obtain ⟨x, _, hx⟩ := mem_updateById hv hid
    rw [hx]
    exact applyUpdate_freeUpd x
  · intro hstat hres hw hid
    unfold handleSubscriptionUpdate at hw
    rcases hp : resolveSubThenUid db evU.id (metaUserId evU) true with ⟨o, db2⟩
    rw [hp] at hres hw
    simp only at hres
    subst hres
    simp only at hw
    rw [updateSubDetails_cancel env now db2 uU evU (metaPlanType evU) hstat] at hw
    obtain ⟨x, _, hx⟩ := mem_updateById hw hid
    rw [hx]
    exact applyUpdate_freeUpd x

/-- The deletion payload for subscription "sub1". -/
def evDeleted : SubEvent :=
  { id := "sub1", status := "canceled", customer := none,
    current_period_end := none, metadata_userId := none,
    metadata_user_id := none, metadata_planType := none,
    metadata_plan_type := none, price_id := none }

/-- A subscription_updated payload for "sub1" carrying status past_due. -/
def evPastDue : SubEvent :=
  { id := "sub1", status := "past_due", customer := none,
    current_period_end := some 200, metadata_userId := none,
    metadata_user_id := none, metadata_planType := some "pro",
    metadata_plan_type := none, price_id := none }

/-- The record `uLongExpiry` after the free-clearing update. -/
def uFreed : UserRec :=
  { id := "u1", email := some "a@b.c", plan := "free", role := "free",
    planStartedAt := some 1, planExpiresAt := none,
    stripeCustomerId := some "cus1", stripeSubscriptionId := none }

/-- Witness for C3 at a concrete deletion and a concrete past_due update of
the pro user `uLongExpiry`. -/
theorem failing_subscription_forces_free_witness :
    (uFreed.plan = "free" ∧ uFreed.role = "free" ∧
      uFreed.planExpiresAt = none ∧ uFreed.stripeSubscriptionId = none) ∧
    (uFreed.plan = "free" ∧ uFreed.role = "free" ∧
      uFreed.planExpiresAt = none ∧ uFreed.stripeSubscriptionId = none) :=
  ⟨(failing_subscription_forces_free { proPriceId := none, businessPriceId := none }
      0 [uLongExpiry] evDeleted evPastDue uLongExpiry uLongExpiry uFreed uFreed).1
      (by decide) (by decide) (by decide),
   (failing_subscription_forces_free { proPriceId := none, businessPriceId := none }
      0 [uLongExpiry] evDeleted evPastDue uLongExpiry uLongExpiry uFreed uFreed).2
      (by decide) (by decide) (by decide) (by decide)⟩

/-- When neither lookup of the first two resolution steps matches, the
resolver yields no user and an untouched store. -/
lemma resolveSubThenUid_none (db : List UserRec) (subId : String)
    (uid? : Option String) (relink : Bool)
    (h1 : findBySub db subId = none)
    (h2 : ∀ uid, uid? = some uid → findById db uid = none) :
    resolveSubThenUid db subId uid? relink = (none, db) := by
  cases uid? with
  | none => simp [resolveSubThenUid, h1]
  | some uid => simp [resolveSubThenUid, h1, h2 uid rfl]

/-- C7 amended: subscription_created resolves the user by stored subscription
reference, then metadata userId, then stored customer reference, and is a
no-op when all three fail; subscription_updated tries only the first two
steps — it has no customerRef fallback and never reads the event's customer
field — and is a no-op when those two fail. -/
theorem subscription_resolution_order (env : Env) (addMonth : Int → Int)
    (now : Int) (db : List UserRec) (evC evU : SubEvent) (c : Option String) :
    ((findBySub db evC.id = none) →
     (∀ uid, metaUserId evC = some uid → findById db uid = none) →
     (∀ cu, evC.customer = some cu → findByCustomer db cu = none) →
     handleSubscriptionCreated env addMonth now db evC = db) ∧
    ((findBySub db evU.id = none) →
     (∀ uid, metaUserId evU = some uid → findById db uid = none) →
     handleSubscriptionUpdate env now db evU = db) ∧
    handleSubscriptionUpdate env now db { evU with customer := c } =
      handleSubscriptionUpdate env now db evU := by
  refine ⟨?_, ?_, ?_⟩
  · intro h1 h2 h3
    have hres := resolveSubThenUid_none db evC.id (metaUserId evC) true h1 h2
    cases hc : evC.customer with
    | none => simp [handleSubscriptionCreated, resolveCreated, hres, hc]
    | some cu =>
      simp [handleSubscriptionCreated, resolveCreated, hres, hc, h3 cu hc]
  · intro h1 h2
    have hres := resolveSubThenUid_none db evU.id (metaUserId evU) true h1 h2
    simp [handleSubscriptionUpdate, hres]
  · rfl

/-- Witness for the amended C7: an empty store resolves nothing on either
event, and both handlers acknowledge without touching the store. -/
theorem subscription_resolution_order_witness :
    (handleSubscriptionCreated { proPriceId := none, businessPriceId := none }
      (fun t => t + 30) 0 [] evCustomerMatch = []) ∧
    (handleSubscriptionUpdate { proPriceId := none, businessPriceId := none }
      0 [] evCustomerMatch = []) :=
  ⟨(subscription_resolution_order { proPriceId := none, businessPriceId := none }
      (fun t => t + 30) 0 [] evCustomerMatch evCustomerMatch none).1
      rfl (fun _ _ => rfl) (fun _ _ => rfl),
   (subscription_resolution_order { proPriceId := none, businessPriceId := none }
      (fun t => t + 30) 0 [] evCustomerMatch evCustomerMatch none).2.1
      rfl (fun _ _ => rfl)⟩

/-- `updateSubscriptionDetails` is the identity on the store when the status
is neither active/trialing nor one of the failing statuses. -/
lemma updateSubDetails_other (env : Env) (now : Int) (db : List UserRec)
    (user : UserRec) (ev : SubEvent) (pt : Option String)
    (h1 : ¬ (ev.status = "active" ∨ ev.status = "trialing"))
    (h2 : ¬ (ev.status = "canceled" ∨ ev.status = "unpaid" ∨
      ev.status = "incomplete_expired" ∨ ev.status = "past_due")) :
    updateSubscriptionDetails env now db user ev pt = db := by
  unfold updateSubscriptionDetails
  simp only [h1, h2]
  rfl

/-- C10: a subscription_updated event with any other provider status (for
example "incomplete" or "paused") leaves every record's plan, role,
planExpiresAt and planStartedAt untouched; at most a record is re-pointed at
the event's subscription id by the resolution relink. -/
theorem subscription_update_other_status_frame (env : Env) (now : Int)
    (db : List UserRec) (ev : SubEvent) (i : Nat)
    (hnd : (db.map UserRec.id).Nodup)
    (h1 : ¬ (ev.status = "active" ∨ ev.status = "trialing"))
    (h2 : ¬ (ev.status = "canceled" ∨ ev.status = "unpaid" ∨
      ev.status = "incomplete_expired" ∨ ev.status = "past_due")) :
    (handleSubscriptionUpdate env now db ev)[i]? = db[i]? ∨
    ∃ u, db[i]? = some u ∧
      (handleSubscriptionUpdate env now db ev)[i]? =
        some { u with stripeSubscriptionId := some ev.id } := by
  rcases resolveSubThenUid_cases db ev.id (metaUserId ev) true with
    ⟨u, hu, heq⟩ | heq | ⟨u, hu, -, heq⟩
  · exact Or.inl (by
      simp [handleSubscriptionUpdate, heq,
        updateSubDetails_other env now db u ev (metaPlanType ev) h1 h2])
  · exact Or.inl (by simp [handleSubscriptionUpdate, heq])
  · have hh : handleSubscriptionUpdate env now db ev =
        saveUser db { u with stripeSubscriptionId := some ev.id } := by
      simp [handleSubscriptionUpdate, heq,
        updateSubDetails_other env now _ _ ev (metaPlanType ev) h1 h2]
    rw [hh, saveUser_index]
    cases hdb : db[i]? with
    | none => exact Or.inl rfl
    | some w =>
      by_cases hwid : w.id = u.id
      · have hwu : w = u := eq_of_id_eq hnd (mem_of_index hdb) hu hwid
        subst hwu
        exact Or.inr ⟨w, rfl, by simp⟩
      · exact Or.inl (by simp [hwid])

/-- `saveUser` preserves the stored ids. -/
lemma saveUser_ids (db : List UserRec) (u : UserRec) :
    (saveUser db u).map UserRec.id = db.map UserRec.id := by
  unfold saveUser
  rw [List.map_map]
  refine List.map_congr_left ?_
  intro v _
  by_cases h : v.id = u.id
  · simp [h]
  · simp [h]

/-- Saving a document derived from a member changes at most the member's own
position: every index either reads unchanged or held the member and now holds
the saved document. -/
lemma saveUser_frame {db : List UserRec} (hnd : (db.map UserRec.id).Nodup)
    {u : UserRec} (hu : u ∈ db) (u2 : UserRec) (hid : u2.id = u.id) (i : Nat) :
    (saveUser db u2)[i]? = db[i]? ∨
    (db[i]? = some u ∧ (saveUser db u2)[i]? = some u2) := by
  rw [saveUser_index]
  cases hdb : db[i]? with
  | none => exact Or.inl rfl
  | some w =>
    by_cases hw : w.id = u2.id
    · have hwu : w = u := eq_of_id_eq hnd (mem_of_index hdb) hu (by rw [hw, hid])
      exact Or.inr ⟨by rw [hwu], by simp [hw]⟩
    · exact Or.inl (by simp [hw])

/-- C2 amended: `invoice.payment_succeeded` never changes any record's plan
or role, and it changes a record's planExpiresAt only to the invoice's period
end, doing so exactly when that period end is in the future and differs from
the stored value — which may move planExpiresAt backwards. -/
theorem invoice_never_changes_plan (now : Int) (db : List UserRec)
    (inv : Invoice) (i : Nat) (hnd : (db.map UserRec.id).Nodup) :
    ((handlePaymentSucceeded now db inv)[i]?.map (fun u => (u.plan, u.role)) =
      db[i]?.map (fun u => (u.plan, u.role))) ∧
    ((handlePaymentSucceeded now db inv)[i]?.map UserRec.planExpiresAt =
      db[i]?.map UserRec.planExpiresAt ∨
     ∃ pe u, inv.period_end = some pe ∧ db[i]? = some u ∧ now < pe ∧
       u.planExpiresAt ≠ some pe ∧
       (handlePaymentSucceeded now db inv)[i]?.map UserRec.planExpiresAt =
         some (some pe)) := by
  cases hsub : inv.subscription with
  | none =>
    have hh : handlePaymentSucceeded now db inv = db := by
      simp [handlePaymentSucceeded, hsub]
    rw [hh]
    exact ⟨rfl, Or.inl rfl⟩
  | some subId =>
    rcases resolveSubThenUid_cases db subId
        (inv.metadata_userId <|> inv.customer_details_metadata_userId) true with
      ⟨u, hu, heq⟩ | heq | ⟨u, hu, -, heq⟩
    · cases hpe : inv.period_end with
      | none =>
        have hh : handlePaymentSucceeded now db inv = db := by
          simp [handlePaymentSucceeded, hsub, heq, hpe]
        rw [hh]
        exact ⟨rfl, Or.inl rfl⟩
      | some pe =>
        by_cases hc : now < pe ∧
            (u.planExpiresAt = none ∨ u.planExpiresAt ≠ some pe)
        · have hh : handlePaymentSucceeded now db inv =
              saveUser db { u with planExpiresAt := some pe } := by
            simp [handlePaymentSucceeded, hsub, heq, hpe, hc]
          rw [hh]
          rcases saveUser_frame hnd hu { u with planExpiresAt := some pe } rfl i with
            h | ⟨hdb, hsi⟩
          · rw [h]
            exact ⟨rfl, Or.inl rfl⟩
          · rw [hsi, hdb]
            refine ⟨rfl, Or.inr ⟨pe, u, rfl, rfl, hc.1, ?_, rfl⟩⟩
            rcases hc.2 with h0 | h0
            · simp [h0]
            · exact h0
        · have hh : handlePaymentSucceeded now db inv = db := by
            simp [handlePaymentSucceeded, hsub, heq, hpe, hc]
          rw [hh]
          exact ⟨rfl, Or.inl rfl⟩
    · have hh : handlePaymentSucceeded now db inv = db := by
        simp [handlePaymentSucceeded, hsub, heq]
      rw [hh]
      exact ⟨rfl, Or.inl rfl⟩
    · have hnd' : ((saveUser db { u with stripeSubscriptionId := some subId }).map
          UserRec.id).Nodup := by
        rw [saveUser_ids]
        exact hnd
      have humem : { u with stripeSubscriptionId := some subId } ∈
          saveUser db { u with stripeSubscriptionId := some subId } :=
        List.mem_map.mpr ⟨u, hu, by simp⟩
      cases hpe : inv.period_end with
      | none =>
        have hh : handlePaymentSucceeded now db inv =
            saveUser db { u with stripeSubscriptionId := some subId } := by
          simp [handlePaymentSucceeded, hsub, heq, hpe]
        rw [hh]
        rcases saveUser_frame hnd hu
            { u with stripeSubscriptionId := some subId } rfl i with h | ⟨hdb, hsi⟩
        · rw [h]
          exact ⟨rfl, Or.inl rfl⟩
        · rw [hsi, hdb]
          exact ⟨rfl, Or.inl rfl⟩
      | some pe =>
        by_cases hc : now < pe ∧
            (u.planExpiresAt = none ∨ u.planExpiresAt ≠ some pe)
        · have hh : handlePaymentSucceeded now db inv =
              saveUser (saveUser db { u with stripeSubscriptionId := some subId })
                { u with stripeSubscriptionId := some subId, planExpiresAt := some pe } := by
            simp [handlePaymentSucceeded, hsub, heq, hpe, hc]
          rw [hh]
          rcases saveUser_frame hnd' humem
              { u with stripeSubscriptionId := some subId, planExpiresAt := some pe }
              rfl i with h2 | ⟨hdb2, hsi2⟩
          · rw [h2]
            rcases saveUser_frame hnd hu
                { u with stripeSubscriptionId := some subId } rfl i with
              h | ⟨hdb, hsi⟩
            · rw [h]
              exact ⟨rfl, Or.inl rfl⟩
            · rw [hsi, hdb]
              exact ⟨rfl, Or.inl rfl⟩
          · rw [hsi2]
            rcases saveUser_frame hnd hu
                { u with stripeSubscriptionId := some subId } rfl i with
              h | ⟨hdb, hsi⟩
            · rw [h] at hdb2
              rw [hdb2]
              refine ⟨rfl, Or.inr ⟨pe, { u with stripeSubscriptionId := some subId },
                rfl, rfl, hc.1, ?_, rfl⟩⟩
              rcases hc.2 with h0 | h0
              · simp [h0]
              · exact h0
            · rw [hdb]
              refine ⟨rfl, Or.inr ⟨pe, u, rfl, rfl, hc.1, ?_, rfl⟩⟩
              rcases hc.2 with h0 | h0
              · simp [h0]
              · exact h0
        · have hh : handlePaymentSucceeded now db inv =
              saveUser db { u with stripeSubscriptionId := some subId } := by
            simp [handlePaymentSucceeded, hsub, heq, hpe, hc]
          rw [hh]
          rcases saveUser_frame hnd hu
              { u with stripeSubscriptionId := some subId } rfl i with h | ⟨hdb, hsi⟩
          · rw [h]
            exact ⟨rfl, Or.inl rfl⟩
          · rw [hsi, hdb]
            exact ⟨rfl, Or.inl rfl⟩

/-- Witness for the amended C2 at the backwards-moving concrete invoice. -/
theorem invoice_never_changes_plan_witness :
    ((handlePaymentSucceeded 0 [uLongExpiry] invEarlierPeriod)[0]?.map
        (fun u => (u.plan, u.role)) =
      [uLongExpiry][0]?.map (fun u => (u.plan, u.role))) ∧
    ((handlePaymentSucceeded 0 [uLongExpiry] invEarlierPeriod)[0]?.map
        UserRec.planExpiresAt =
      [uLongExpiry][0]?.map UserRec.planExpiresAt ∨
     ∃ pe u, invEarlierPeriod.period_end = some pe ∧
       [uLongExpiry][0]? = some u ∧ (0 : Int) < pe ∧
       u.planExpiresAt ≠ some pe ∧
       (handlePaymentSucceeded 0 [uLongExpiry] invEarlierPeriod)[0]?.map
         UserRec.planExpiresAt = some (some pe)) :=
  invoice_never_changes_plan 0 [uLongExpiry] invEarlierPeriod 0 (by decide)

/-- Witness for C10: a "paused" update that resolves by metadata userId
relinks the subscription id and changes nothing else. -/
theorem subscription_update_other_status_frame_witness :
    (handleSubscriptionUpdate { proPriceId := none, businessPriceId := none } 0
      [uCustomerOnly]
      { id := "sub9", status := "paused", customer := none,
        current_period_end := some 100, metadata_userId := some "u1",
        metadata_user_id := none, metadata_planType := none,
        metadata_plan_type := none, price_id := none })[0]? = [uCustomerOnly][0]? ∨
    ∃ u, [uCustomerOnly][0]? = some u ∧
      (handleSubscriptionUpdate { proPriceId := none, businessPriceId := none } 0
        [uCustomerOnly]
        { id := "sub9", status := "paused", customer := none,
          current_period_end := some 100, metadata_userId := some "u1",
          metadata_user_id := none, metadata_planType := none,
          metadata_plan_type := none, price_id := none })[0]? =
        some { u with stripeSubscriptionId := some "sub9" } :=
  subscription_update_other_status_frame
    { proPriceId := none, businessPriceId := none } 0 [uCustomerOnly]
    { id := "sub9", status := "paused", customer := none,
      current_period_end := some 100, metadata_userId := some "u1",
      metadata_user_id := none, metadata_planType := none,
      metadata_plan_type := none, price_id := none } 0
    (by decide) (by decide) (by decide)

/-- C5 amended: verify-session does not reproduce the webhook's outcome.  It
resolves the plan tag only from `metadata.planType` (falling back to
`subscription_details.metadata.planType`), while the webhook reads
`metadata.plan` first; and because it retrieves the session with
`expand: ['subscription']`, for every session carrying a subscription
reference the call performs no write at all — the stored string reference
never equals the expanded object, the nested subscription retrieval always
fails, and the final `$set` of the object into the string-typed reference
field rejects.  Only for a session without a subscription reference do the
two paths converge: with `metadata.planType` present (`plan` absent or equal
to it), an embedded userId equal to the caller, a paid status, and a caller
record that does not satisfy the already-updated guard, both paths apply the
identical update (plan and role, planStartedAt = now, planExpiresAt = now +
1 month) and leave the store in the same final state. -/
theorem verify_checkout_agree (retrieve : String → Option StripeSub)
    (addMonth : Int → Int) (now : Int) (db : List UserRec) (session : Session)
    (callerId pt sid : String) :
    (session.subscription = some sid →
      (verifyPaymentSession retrieve addMonth now db session callerId).1 = db) ∧
    (session.subscription = none →
     session.metadata_userId = some callerId →
     session.metadata_planType = some pt →
     (session.metadata_plan = none ∨ session.metadata_plan = some pt) →
     session.payment_status = "paid" →
     (∀ u, findById db callerId = some u →
        ¬ (u.plan = jsToLower pt ∧ u.role = jsToLower pt ∧
          u.stripeSubscriptionId = none ∧ expFuture u.planExpiresAt now = true)) →
     (verifyPaymentSession retrieve addMonth now db session callerId).1 =
       handleCheckoutCompleted retrieve addMonth now db session) := by
  constructor
  · intro hsub
    unfold verifyPaymentSession
    rw [hsub]
    by_cases hm : (match session.metadata_userId with
      | some m => m != callerId
      | none => false) = true
    · simp [hm]
    · simp only [hm, if_false]
      by_cases hp : session.payment_status ≠ "paid"
      · simp [hp]
      · simp only [hp, if_false]
        cases session.metadata_planType <|> session.subscription_details_planType with
        | none => rfl
        | some pt' =>
          by_cases hv : ¬ (jsToLower pt' = "pro" ∨ jsToLower pt' = "business")
          · simp [hv]
          · simp only [hv, if_false]
            cases findById db callerId with
            | none => rfl
            | some user =>
              by_cases hd : (user.plan == jsToLower pt' &&
                  user.role == jsToLower pt' && false &&
                  expFuture user.planExpiresAt now) = true
              · simp [hd]
              · simp [hd]
  · intro hsub h1 h2 h3 h4 h6
    have htag : checkoutPlanTag session = some pt := by
      rcases h3 with h | h <;> simp [checkoutPlanTag, h, h2]
    have huid : checkoutUserId db session = some callerId := by
      simp [checkoutUserId, h1]
    by_cases hvalid : jsToLower pt = "pro" ∨ jsToLower pt = "business"
    · cases hfind : findById db callerId with
      | none =>
        simp [verifyPaymentSession, handleCheckoutCompleted, huid, htag,
          h1, h2, h4, hvalid, hfind]
      | some user =>
        have hguard := h6 user hfind
        by_cases hA : user.plan = jsToLower pt <;>
          by_cases hB : user.role = jsToLower pt <;>
          by_cases hS : user.stripeSubscriptionId = (none : Option String) <;>
          cases hC : expFuture user.planExpiresAt now <;>
          first
          | (simp [verifyPaymentSession, handleCheckoutCompleted, huid, htag,
              h1, h2, h4, hsub, hvalid, hfind, hA, hB, hS, hC]
             done)
          | exact absurd ⟨hA, hB, hS, hC⟩ hguard
    · simp [verifyPaymentSession, handleCheckoutCompleted, huid, htag,
        h1, h2, h4, hvalid]

/-- A paid session carrying both metadata keys and a subscription reference,
embedding caller "u1". -/
def sessBothKeys : Session :=
  { id := "cs3", payment_status := "paid", customer := some "cus1",
    subscription := some "sub1", metadata_userId := some "u1",
    metadata_plan := some "pro", metadata_planType := some "pro",
    customer_details_email := none, customer_email := none,
    subscription_details_planType := none }

/-- A paid session without a subscription reference, embedding caller "u1". -/
def sessNoSub : Session :=
  { id := "cs4", payment_status := "paid", customer := some "cus1",
    subscription := none, metadata_userId := some "u1",
    metadata_plan := some "pro", metadata_planType := some "pro",
    customer_details_email := none, customer_email := none,
    subscription_details_planType := none }

/-- Witness for the amended C5: with a subscription present verify-session
leaves the store untouched; without one it produces the same store as the
checkout webhook. -/
theorem verify_checkout_agree_witness :
    ((verifyPaymentSession retrFixed (fun t => t + 30) 0 [uFreePlan]
        sessBothKeys "u1").1 = [uFreePlan]) ∧
    ((verifyPaymentSession retrFixed (fun t => t + 30) 0 [uFreePlan]
        sessNoSub "u1").1 =
      handleCheckoutCompleted retrFixed (fun t => t + 30) 0 [uFreePlan]
        sessNoSub) :=
  ⟨(verify_checkout_agree retrFixed (fun t => t + 30) 0 [uFreePlan]
      sessBothKeys "u1" "pro" "sub1").1 rfl,
   (verify_checkout_agree retrFixed (fun t => t + 30) 0 [uFreePlan]
      sessNoSub "u1" "pro" "sub1").2 rfl rfl rfl (Or.inr rfl) rfl
     (fun u h => by
       have hu : u = uFreePlan := by
         have h2 := h
         simp [findById, uFreePlan] at h2
         exact h2.symm
       rw [hu]
       decide)⟩

end ResumeBackend
